import Mathlib

/-!
Shallow embedding of the Magnum repository parts under verification:

* the `Trade::AnyImageImporter` plugin's `openData` / `openFile` format
  dispatch, whose observable behaviour is fixed by the unit test
  `src/MagnumPlugins/AnyImageImporter/Test/AnyImageImporterTest.cpp`;
* the `GL::AbstractShaderProgram` link / validate / uniform-lookup API
  declared in `src/Magnum/GL/AbstractShaderProgram.h`;
* the `Trade::AbstractSceneConverter` plugin base class, its
  `SceneConverterFeature` bit patterns and flag manipulation, declared in
  the same header.

The repository under `src/` ships only the headers (declarations plus
their documentation) and the importer test; the `.cpp` implementation
bodies are not part of it.  Where a definition embeds such a missing
body it is marked `Modelled from the spec:` and follows the documented
contract and the expectations of the shipped test file.
-/

namespace Magnum

namespace AnyImageImporter

/-- Lowercase hexadecimal digit of a value below 16: digits 0-9 then a-f. -/
def hexDigit (n : Nat) : Char :=
  Char.ofNat (if n < 10 then 48 + n else 87 + n)

/-- Two lowercase hexadecimal digits of one byte, the byte treated as
unsigned and a leading zero digit preserved (mirrors the per-byte
formatting of an `UnsignedByte` with a two-digit hex format). -/
def byteHex (b : Nat) : String :=
  String.mk [hexDigit (b / 16 % 16), hexDigit (b % 16)]

/-- Hexadecimal rendering of the leading bytes of the data: at most four
bytes are shown, mirroring the loop bound `min(data.size(), sizeof(UnsignedInt))`
evidenced by the test expectations (a 14-byte input prints 4 bytes of
signature, shorter inputs print all their bytes). -/
def signatureHex (data : List Nat) : String :=
  String.join ((data.take 4).map byteHex)

/-- Modelled from the spec: the file-signature table the importer matches the
leading bytes of the input against; the implementation body of
`AnyImageImporter::doOpenData` is not under `src/`.  Each entry pairs a byte
signature with the plugin delegated to.  The entries are fixed by the
`detect` and `unknownSignature` test rows: KTX2 requires the full
version-2 identifier, DDS requires the trailing space, TIFF requires all
four bytes including the zero byte. -/
def knownSignatures : List (List Nat × String) :=
  [([0xab, 0x4b, 0x54, 0x58, 0x20, 0x32, 0x30, 0xbb, 0x0d, 0x0a, 0x1a, 0x0a], "KtxImporter"),
   ([0xff, 0xd8, 0xff], "JpegImporter"),
   ([0x89, 0x50, 0x4e, 0x47, 0x0d, 0x0a, 0x1a, 0x0a], "PngImporter"),
   ([0x23, 0x3f, 0x52, 0x41, 0x44, 0x49, 0x41, 0x4e, 0x43, 0x45], "HdrImporter"),
   ([0x44, 0x44, 0x53, 0x20], "DdsImporter"),
   ([0x76, 0x2f, 0x31, 0x01], "OpenExrImporter"),
   ([0x73, 0x42], "BasisImporter"),
   ([0x42, 0x4d], "BmpImporter"),
   ([0x47, 0x49, 0x46, 0x38, 0x37, 0x61], "GifImporter"),
   ([0x47, 0x49, 0x46, 0x38, 0x39, 0x61], "GifImporter"),
   ([0x49, 0x49, 0x2a, 0x00], "TiffImporter"),
   ([0x4d, 0x4d, 0x00, 0x2a], "TiffImporter")]

/-- Modelled from the spec: `AnyImageImporter::doOpenData`, whose body is not
under `src/`; behaviour fixed by the `emptyData`, `unknownSignature` and
`detect` tests.  Empty input fails with the file-is-empty diagnostic before
any signature detection; otherwise the leading bytes are matched against the
signature table; on a match the call is delegated to the matched plugin
(delegation itself is out of scope here, the result records the plugin
name); with no match the call fails with the signature diagnostic.
`Except.error` carries the diagnostic printed to the error output together
with the `false` (failed) open state. -/
def openData (data : List Nat) : Except String String :=
  if data.isEmpty then
    Except.error "Trade::AnyImageImporter::openData(): file is empty"
  else
    match knownSignatures.find? (fun s => s.1.isPrefixOf data) with
    | some s => Except.ok s.2
    | none => Except.error
        ("Trade::AnyImageImporter::openData(): cannot determine the format from signature 0x"
          ++ signatureHex data)

/-- Lowercased copy of a string, character by character (mirrors
`Utility::String::lowercase` applied to the filename before extension
matching). -/
def lowercaseStr (s : String) : String :=
  String.mk (s.data.map Char.toLower)

/-- Whether the lowercased filename ends with the given extension. -/
def hasExtension (filename ext : String) : Bool :=
  ext.data.isSuffixOf (lowercaseStr filename).data

/-- Modelled from the spec: the extension table `AnyImageImporter::doOpenFile`
matches the lowercased filename against; the implementation body is not under
`src/`.  Entries pair a filename extension with the plugin delegated to,
following the formats exercised by the `detect` test rows. -/
def knownExtensions : List (String × String) :=
  [(".tga", "TgaImporter"), (".vda", "TgaImporter"), (".icb", "TgaImporter"),
   (".vst", "TgaImporter"),
   (".png", "PngImporter"),
   (".jpg", "JpegImporter"), (".jpe", "JpegImporter"), (".jpeg", "JpegImporter"),
   (".jp2", "Jpeg2000Importer"),
   (".hdr", "HdrImporter"),
   (".ico", "IcoImporter"), (".cur", "IcoImporter"),
   (".dds", "DdsImporter"),
   (".bmp", "BmpImporter"),
   (".gif", "GifImporter"),
   (".psd", "PsdImporter"),
   (".tif", "TiffImporter"), (".tiff", "TiffImporter"),
   (".basis", "BasisImporter"),
   (".exr", "OpenExrImporter"),
   (".ktx2", "KtxImporter")]

/-- Modelled from the spec: `AnyImageImporter::doOpenFile`, whose body is not
under `src/`; behaviour fixed by the `unknownExtension` and `detect` tests.
The lowercased filename's extension selects the plugin delegated to
(delegation out of scope, the result records the plugin name); an unknown
extension fails with the cannot-determine-the-format diagnostic naming the
filename.  `Except.error` carries the diagnostic printed to the error output
together with the `false` (failed) open state. -/
def openFile (filename : String) : Except String String :=
  match knownExtensions.find? (fun e => hasExtension filename e.1) with
  | some e => Except.ok e.2
  | none => Except.error
      ("Trade::AnyImageImporter::openFile(): cannot determine the format of " ++ filename)

end AnyImageImporter

namespace ShaderGL

/-- One OpenGL call issued by the embedded `AbstractShaderProgram` API, as
far as the verified claims observe it: issuing a link, querying a link
status, issuing a program validation. -/
inductive GLCall where
  | linkProgram (id : Nat)
  | getLinkStatus (id : Nat)
  | validateProgram (id : Nat)
deriving DecidableEq, Repr

/-- Modelled from the spec: the driver-side state of one shader program
object as observed through `glGetProgram` / `glGetProgramInfoLog`; the
`AbstractShaderProgram.cpp` implementation body is not under `src/`.
`linkSuccess` is the `GL_LINK_STATUS` the driver reports after the
program is linked, `linkLog` its link info-log (empty when the driver has
no message); `validateSuccess` and `validateLog` likewise for
`glValidateProgram`.  `uniforms` and `uniformBlocks` are the name tables
of the linked program queried by `glGetUniformLocation` /
`glGetUniformBlockIndex`. -/
structure ProgramObject where
  id : Nat
  linkSuccess : Bool
  linkLog : String
  validateSuccess : Bool
  validateLog : String
  uniforms : List (String × Int)
  uniformBlocks : List (String × Nat)

/-- Modelled from the spec: `AbstractShaderProgram::uniformLocation`, whose
implementation body is not under `src/`; the header documents that if the
uniform is not found in the linked shader a warning is printed and `-1` is
returned.  Result pairs the returned location with the warnings printed. -/
def uniformLocation (p : ProgramObject) (name : String) : Int × List String :=
  match p.uniforms.lookup name with
  | some loc => (loc, [])
  | none => (-1, ["location of uniform " ++ name ++ " cannot be retrieved"])

/-- Modelled from the spec: `AbstractShaderProgram::uniformBlockIndex`, whose
implementation body is not under `src/`; the header documents that if the
uniform block name is not found in the linked shader a warning is printed
and `0xffffffffu` is returned.  Result pairs the returned index with the
warnings printed. -/
def uniformBlockIndex (p : ProgramObject) (name : String) : Nat × List String :=
  match p.uniformBlocks.lookup name with
  | some idx => (idx, [])
  | none => (0xffffffff, ["index of uniform block " ++ name ++ " cannot be retrieved"])

/-- Checking pass of the batched link: for the list of programs, in order,
query each one's link status, print its link info-log to the error output
when non-empty, and accumulate the conjunction of the statuses.  Returns
(all-succeeded, GL calls issued, error output printed). -/
def linkCheckPass : List ProgramObject → Bool × List GLCall × List String
  | [] => (true, [], [])
  | p :: rest =>
      (p.linkSuccess && (linkCheckPass rest).1,
       GLCall.getLinkStatus p.id :: (linkCheckPass rest).2.1,
       if p.linkLog = "" then (linkCheckPass rest).2.2
       else p.linkLog :: (linkCheckPass rest).2.2)

/-- Modelled from the spec: the batched
`AbstractShaderProgram::link(std::initializer_list<...>)`, whose
implementation body is not under `src/`; the header documents that the
operation is batched so the driver may link multiple shaders
simultaneously, that the linker message (if any) is printed to the error
output, and that the call returns `false` if linking of any shader failed
and `true` if everything succeeded.  First pass issues `glLinkProgram` on
every program, second pass checks every status.  Returns (result, GL calls
issued in order, error output printed). -/
def link (ps : List ProgramObject) : Bool × List GLCall × List String :=
  ((linkCheckPass ps).1,
   ps.map (fun p => GLCall.linkProgram p.id) ++ (linkCheckPass ps).2.1,
   (linkCheckPass ps).2.2)

/-- Modelled from the spec: `AbstractShaderProgram::validate`, whose
implementation body is not under `src/`; the header declares it as
returning `std::pair<bool, std::string>` and documents it as returning the
validation status and optional validation message.  Returns ((status,
message), GL calls issued, error output printed). -/
def validate (p : ProgramObject) : (Bool × String) × List GLCall × List String :=
  ((p.validateSuccess, p.validateLog), [GLCall.validateProgram p.id], [])

end ShaderGL

namespace Trade

/-- `SceneConverterFeature::ConvertMesh`, bit pattern `1 << 0` from
`src/Magnum/GL/AbstractShaderProgram.h`. -/
def ConvertMesh : Nat := 1 <<< 0

/-- `SceneConverterFeature::ConvertMeshInPlace`, bit pattern `1 << 1`. -/
def ConvertMeshInPlace : Nat := 1 <<< 1

/-- `SceneConverterFeature::ConvertMeshToFile`, bit pattern `1 << 2`. -/
def ConvertMeshToFile : Nat := 1 <<< 2

/-- `SceneConverterFeature::ConvertMeshToData`, defined in the source as
`ConvertMeshToFile|(1 << 3)`. -/
def ConvertMeshToData : Nat := ConvertMeshToFile ||| (1 <<< 3)

/-- A `SceneConverterFeatures` enum set (`Containers::EnumSet` over an
`UnsignedByte`) contains an enumerator when all of the enumerator's bits
are set in it. -/
def hasFeature (fs v : Nat) : Bool := fs &&& v == v

/-- Mesh data as far as the converter claims observe it: an index buffer
and a vertex buffer (a concrete stand-in for `Trade::MeshData`). -/
structure MeshData where
  indices : List Nat
  vertices : List Int
deriving DecidableEq, Repr

/-- Modelled from the spec: the plugin-implemented hooks of an
`AbstractSceneConverter`; the implementation bodies (`doConvert`,
`doConvertInPlace`, `doConvertToData`, `doConvertToFile`) are virtual and
plugin-supplied, and `AbstractSceneConverter.cpp` is not under `src/`.
Following the documented contract, a failing hook produces the diagnostic
it prints (`Except.error`), a succeeding one its result. -/
structure SceneConverterImpl where
  features : Nat
  doConvert : MeshData → Except String MeshData
  doConvertInPlace : MeshData → Except String MeshData
  doConvertToData : MeshData → Except String (List Nat)
  doConvertToFile : MeshData → String → Except String Unit

/-- Modelled from the spec: `AbstractSceneConverter::convert`; on failure an
empty `Containers::Optional` (here `none`) is returned and the diagnostic
is printed.  Result pairs the returned optional with the error output. -/
def convert (c : SceneConverterImpl) (mesh : MeshData) :
    Option MeshData × List String :=
  match c.doConvert mesh with
  | Except.ok out => (some out, [])
  | Except.error e => (none, [e])

/-- Modelled from the spec: `AbstractSceneConverter::convertInPlace`; the
header documents that on failure an error message is printed, `false` is
returned and the mesh is guaranteed to stay unchanged.  Result is
(success, mesh after the call, error output). -/
def convertInPlace (c : SceneConverterImpl) (mesh : MeshData) :
    Bool × MeshData × List String :=
  match c.doConvertInPlace mesh with
  | Except.ok out => (true, out, [])
  | Except.error e => (false, mesh, [e])

/-- Modelled from the spec: `AbstractSceneConverter::convertToData`; on
failure a null `Containers::Array` (here `none`) is returned and the
diagnostic is printed.  Result pairs the returned array with the error
output. -/
def convertToData (c : SceneConverterImpl) (mesh : MeshData) :
    Option (List Nat) × List String :=
  match c.doConvertToData mesh with
  | Except.ok out => (some out, [])
  | Except.error e => (none, [e])

/-- Modelled from the spec: `AbstractSceneConverter::convertToFile`; returns
`true` on success, prints an error message and returns `false` otherwise.
Result pairs the returned flag with the error output. -/
def convertToFile (c : SceneConverterImpl) (mesh : MeshData)
    (filename : String) : Bool × List String :=
  match c.doConvertToFile mesh filename with
  | Except.ok _ => (true, [])
  | Except.error e => (false, [e])

/-- The flag-related state of an `AbstractSceneConverter`: the stored
`_flags` bitset (an `UnsignedByte`-backed enum set) and the sequence of
values the `doSetFlags` hook has observed. -/
structure ConverterFlagsState where
  flags : Nat
  hookObserved : List Nat
deriving DecidableEq, Repr

/-- Modelled from the spec: `AbstractSceneConverter::setFlags`, whose body is
not under `src/`; it stores the flags and invokes the `doSetFlags` hook
with the same value. -/
def setFlags (s : ConverterFlagsState) (f : Nat) : ConverterFlagsState :=
  { flags := f, hookObserved := s.hookObserved ++ [f] }

/-- Modelled from the spec: `AbstractSceneConverter::addFlags`, documented as
calling `setFlags()` with the existing flags ORed with the argument. -/
def addFlags (s : ConverterFlagsState) (f : Nat) : ConverterFlagsState :=
  setFlags s (s.flags ||| f)

/-- Modelled from the spec: `AbstractSceneConverter::clearFlags`, documented
as calling `setFlags()` with the existing flags ANDed with the inverse of
the argument; the inverse of an `UnsignedByte`-backed enum set is the
complement within eight bits. -/
def clearFlags (s : ConverterFlagsState) (f : Nat) : ConverterFlagsState :=
  setFlags s (s.flags &&& (f ^^^ 255))

/-- A concrete mesh used to evaluate the converter model on an input. -/
def sampleMesh : MeshData :=
  ⟨[0, 1, 2, 2, 3, 0], [1, -1, 2, -2]⟩

/-- A concrete converter whose hooks all fail with a fixed diagnostic, the
shape the documented contract prescribes for a conversion failure. -/
def failingConverter : SceneConverterImpl :=
  ⟨ConvertMesh ||| ConvertMeshInPlace ||| ConvertMeshToData,
   fun _ => Except.error "conversion failed",
   fun _ => Except.error "in-place conversion failed",
   fun _ => Except.error "data conversion failed",
   fun _ _ => Except.error "file conversion failed"⟩

/-- A concrete converter whose in-place hook succeeds, reversing the index
buffer (a stand-in for an index-reordering optimization). -/
def reversingConverter : SceneConverterImpl :=
  ⟨ConvertMeshInPlace,
   fun m => Except.ok m,
   fun m => Except.ok ⟨m.indices.reverse, m.vertices⟩,
   fun _ => Except.error "mesh-to-data conversion not supported",
   fun _ _ => Except.error "mesh-to-file conversion not supported"⟩

end Trade

/-- Claim C1: for every non-empty input whose leading bytes match no known
image-format signature, `AnyImageImporter::openData` fails and prints the
diagnostic naming the lowercase hexadecimal of the leading (at most four)
bytes, each byte unsigned, leading zero bytes preserved. -/
theorem openData_unknown_signature (data : List Nat) (hne : data ≠ [])
    (hunk : ∀ s ∈ AnyImageImporter.knownSignatures, s.1.isPrefixOf data = false) :
    AnyImageImporter.openData data = Except.error
      ("Trade::AnyImageImporter::openData(): cannot determine the format from signature 0x"
        ++ AnyImageImporter.signatureHex data) := by
  have hemp : data.isEmpty = false := by
    cases data with
    | nil => exact absurd rfl hne
    | cons a l => rfl
  have hfind : AnyImageImporter.knownSignatures.find?
      (fun s => s.1.isPrefixOf data) = none := by
    rw [List.find?_eq_none]
    intro s hs
    simp [hunk s hs]
  simp [AnyImageImporter.openData, hemp, hfind]

/-- Witness for C1 at the test vectors: the 14-byte input starting
25 3a 00 56 prints the four leading bytes, and 00 ff 00 ff keeps its
leading zero byte. -/
theorem openData_unknown_signature_witness :
    AnyImageImporter.openData
        [0x25, 0x3a, 0x00, 0x56, 0x20, 0x62, 0x6c, 0x61, 0x62, 0x6c, 0x61, 0x62, 0x6c, 0x61] =
      Except.error "Trade::AnyImageImporter::openData(): cannot determine the format from signature 0x253a0056" ∧
    AnyImageImporter.openData [0x00, 0xff, 0x00, 0xff] =
      Except.error "Trade::AnyImageImporter::openData(): cannot determine the format from signature 0x00ff00ff" := by
  have h1 := openData_unknown_signature
    [0x25, 0x3a, 0x00, 0x56, 0x20, 0x62, 0x6c, 0x61, 0x62, 0x6c, 0x61, 0x62, 0x6c, 0x61]
    (by decide) (by decide)
  have h2 := openData_unknown_signature [0x00, 0xff, 0x00, 0xff]
    (by decide) (by decide)
  exact ⟨h1, h2⟩

/-- Claim C8: for empty input data `AnyImageImporter::openData` fails with
exactly the file-is-empty diagnostic, before any signature detection. -/
theorem openData_empty_file :
    AnyImageImporter.openData [] =
      Except.error "Trade::AnyImageImporter::openData(): file is empty" := rfl

/-- Claim C7: for every filename whose extension matches no known image
format, `AnyImageImporter::openFile` fails and prints exactly the
cannot-determine-the-format diagnostic naming the filename. -/
theorem openFile_unknown_extension (filename : String)
    (h : ∀ e ∈ AnyImageImporter.knownExtensions,
      AnyImageImporter.hasExtension filename e.1 = false) :
    AnyImageImporter.openFile filename = Except.error
      ("Trade::AnyImageImporter::openFile(): cannot determine the format of "
        ++ filename) := by
  have hfind : AnyImageImporter.knownExtensions.find?
      (fun e => AnyImageImporter.hasExtension filename e.1) = none := by
    rw [List.find?_eq_none]
    intro e he
    simp [h e he]
  simp [AnyImageImporter.openFile, hfind]

/-- Witness for C7 at the filename of the `unknownExtension` test. -/
theorem openFile_unknown_extension_witness :
    AnyImageImporter.openFile "image.xcf" =
      Except.error "Trade::AnyImageImporter::openFile(): cannot determine the format of image.xcf" :=
  openFile_unknown_extension "image.xcf" (by decide)

/-- Claim C2: a uniform name not found in the linked program makes
`AbstractShaderProgram::uniformLocation` return the sentinel `-1`, a
uniform block name not found makes
`AbstractShaderProgram::uniformBlockIndex` return the sentinel
`0xffffffffu`, and in both cases a warning is printed. -/
theorem uniform_lookup_sentinels (p : ShaderGL.ProgramObject) (n1 n2 : String)
    (h1 : p.uniforms.lookup n1 = none)
    (h2 : p.uniformBlocks.lookup n2 = none) :
    (ShaderGL.uniformLocation p n1).1 = -1 ∧
    (ShaderGL.uniformLocation p n1).2 ≠ [] ∧
    (ShaderGL.uniformBlockIndex p n2).1 = 0xffffffff ∧
    (ShaderGL.uniformBlockIndex p n2).2 ≠ [] := by
  refine ⟨?_, ?_, ?_, ?_⟩ <;>
    simp [ShaderGL.uniformLocation, ShaderGL.uniformBlockIndex, h1, h2]

/-- Witness for C2 on a concrete program containing neither the queried
uniform nor the queried uniform block. -/
theorem uniform_lookup_sentinels_witness :
    (ShaderGL.uniformLocation
      ⟨1, true, "", true, "", [("color", 3)], [("material", 0)]⟩
      "projectionMatrix").1 = -1 ∧
    (ShaderGL.uniformBlockIndex
      ⟨1, true, "", true, "", [("color", 3)], [("material", 0)]⟩
      "lights").1 = 0xffffffff := by
  have h := uniform_lookup_sentinels
    ⟨1, true, "", true, "", [("color", 3)], [("material", 0)]⟩
    "projectionMatrix" "lights" rfl rfl
  exact ⟨h.1, h.2.2.1⟩

/-- Counterexample to claim C5 as stated: on a concrete program whose
validation failed with a non-empty driver info-log,
`AbstractShaderProgram::validate` prints nothing to the error output; the
info-log comes back as the second component of the returned
(status, message) pair instead. -/
theorem validate_prints_nothing_counterexample :
    (ShaderGL.validate ⟨7, true, "", false, "driver validation log", [], []⟩).1 =
      (false, "driver validation log") ∧
    "driver validation log" ≠ "" ∧
    (ShaderGL.validate ⟨7, true, "", false, "driver validation log", [], []⟩).2.2 = [] :=
  ⟨rfl, by decide, rfl⟩

/-- Helper: the checking pass of the batched link prints every non-empty
link info-log of the batch to the error output. -/
theorem linkCheckPass_log_mem (ps : List ShaderGL.ProgramObject)
    (p : ShaderGL.ProgramObject) (hp : p ∈ ps) (hlog : p.linkLog ≠ "") :
    p.linkLog ∈ (ShaderGL.linkCheckPass ps).2.2 := by
  induction ps with
  | nil => cases hp
  | cons a rest ih =>
    rcases List.mem_cons.mp hp with h | h
    · subst h
      simp [ShaderGL.linkCheckPass, hlog]
    · by_cases ha : a.linkLog = "" <;>
        simp [ShaderGL.linkCheckPass, ha, ih h]

/-- Claim C5 (amended): on link failure the linker message (if any) is
printed to the error output --- any program of the batch with a non-empty
link info-log has it printed --- while `validate` does not print the
driver info-log: it returns the validation status and the info-log
message as a pair, leaving the error output empty. -/
theorem link_prints_log_validate_returns (ps : List ShaderGL.ProgramObject)
    (p : ShaderGL.ProgramObject) (hp : p ∈ ps) (hlog : p.linkLog ≠ "")
    (q : ShaderGL.ProgramObject) :
    p.linkLog ∈ (ShaderGL.link ps).2.2 ∧
    ShaderGL.validate q =
      ((q.validateSuccess, q.validateLog),
       [ShaderGL.GLCall.validateProgram q.id], []) :=
  ⟨by simpa [ShaderGL.link] using linkCheckPass_log_mem ps p hp hlog, rfl⟩

/-- Witness for the amended C5: a one-program batch failing to link with a
non-empty log has the log printed; a concrete failing validation returns
its log without printing. -/
theorem link_validate_logs_witness :
    "link warning" ∈
      (ShaderGL.link [⟨3, false, "link warning", true, "", [], []⟩]).2.2 ∧
    ShaderGL.validate ⟨7, true, "", false, "validation log", [], []⟩ =
      ((false, "validation log"), [ShaderGL.GLCall.validateProgram 7], []) := by
  have h := link_prints_log_validate_returns
    [⟨3, false, "link warning", true, "", [], []⟩]
    ⟨3, false, "link warning", true, "", [], []⟩
    (List.mem_singleton.mpr rfl) (by decide)
    ⟨7, true, "", false, "validation log", [], []⟩
  exact ⟨h.1, h.2⟩

/-- Helper: the checking pass returns the conjunction of the link statuses
of the whole batch. -/
theorem linkCheckPass_fst (ps : List ShaderGL.ProgramObject) :
    (ShaderGL.linkCheckPass ps).1 = ps.all (fun p => p.linkSuccess) := by
  induction ps with
  | nil => rfl
  | cons p rest ih => simp [ShaderGL.linkCheckPass, ih]

/-- Helper: the checking pass issues exactly one status query per program,
in batch order. -/
theorem linkCheckPass_calls (ps : List ShaderGL.ProgramObject) :
    (ShaderGL.linkCheckPass ps).2.1 =
      ps.map (fun p => ShaderGL.GLCall.getLinkStatus p.id) := by
  induction ps with
  | nil => rfl
  | cons p rest ih => simp [ShaderGL.linkCheckPass, ih]

/-- Claim C6: the batched `AbstractShaderProgram::link` returns true
exactly when every program of the list linked successfully (false if any
link failed), and the operation is batched: every link is issued before
any link status is checked. -/
theorem link_batched_returns_all (ps : List ShaderGL.ProgramObject) :
    (ShaderGL.link ps).1 = ps.all (fun p => p.linkSuccess) ∧
    (ShaderGL.link ps).2.1 =
      ps.map (fun p => ShaderGL.GLCall.linkProgram p.id)
        ++ ps.map (fun p => ShaderGL.GLCall.getLinkStatus p.id) :=
  ⟨by simpa [ShaderGL.link] using linkCheckPass_fst ps,
   by simp [ShaderGL.link, linkCheckPass_calls ps]⟩

/-- Claim C3: a failing conversion is signalled by an empty value or false
together with the printed diagnostic: `convert` returns an empty optional,
`convertToData` a null array, `convertToFile` false, each alongside the
diagnostic on the error output. -/
theorem conversion_failure_signalling (c : Trade.SceneConverterImpl)
    (m : Trade.MeshData) (fn e1 e2 e3 : String)
    (h1 : c.doConvert m = Except.error e1)
    (h2 : c.doConvertToData m = Except.error e2)
    (h3 : c.doConvertToFile m fn = Except.error e3) :
    Trade.convert c m = (none, [e1]) ∧
    Trade.convertToData c m = (none, [e2]) ∧
    Trade.convertToFile c m fn = (false, [e3]) := by
  refine ⟨?_, ?_, ?_⟩ <;>
    simp [Trade.convert, Trade.convertToData, Trade.convertToFile, h1, h2, h3]

/-- Witness for C3 on a concrete converter whose hooks fail with fixed
diagnostics. -/
theorem conversion_failure_signalling_witness :
    Trade.convert Trade.failingConverter Trade.sampleMesh =
      (none, ["conversion failed"]) ∧
    Trade.convertToData Trade.failingConverter Trade.sampleMesh =
      (none, ["data conversion failed"]) ∧
    Trade.convertToFile Trade.failingConverter Trade.sampleMesh "mesh.ply" =
      (false, ["file conversion failed"]) :=
  conversion_failure_signalling Trade.failingConverter Trade.sampleMesh
    "mesh.ply" _ _ _ rfl rfl rfl

/-- Claim C4: whenever `AbstractSceneConverter::convertInPlace` returns
false the mesh argument stays unchanged, and it returns true exactly when
the underlying in-place conversion succeeded. -/
theorem convertInPlace_atomic (c : Trade.SceneConverterImpl)
    (m : Trade.MeshData) :
    ((Trade.convertInPlace c m).1 = false → (Trade.convertInPlace c m).2.1 = m) ∧
    ((Trade.convertInPlace c m).1 = true ↔ (c.doConvertInPlace m).isOk = true) := by
  cases h : c.doConvertInPlace m with
  | ok out => simp [Trade.convertInPlace, h, Except.isOk, Except.toBool]
  | error e => simp [Trade.convertInPlace, h, Except.isOk, Except.toBool]

/-- Witness for C4: a concrete failing conversion leaves the sample mesh
unchanged; a concrete succeeding one returns true. -/
theorem convertInPlace_atomic_witness :
    (Trade.convertInPlace Trade.failingConverter Trade.sampleMesh).2.1 =
      Trade.sampleMesh ∧
    (Trade.convertInPlace Trade.reversingConverter Trade.sampleMesh).1 = true :=
  ⟨(convertInPlace_atomic Trade.failingConverter Trade.sampleMesh).1 rfl,
   (convertInPlace_atomic Trade.reversingConverter Trade.sampleMesh).2.mpr rfl⟩

set_option maxRecDepth 4096 in
/-- Claim C9: every `SceneConverterFeatures` set (an `UnsignedByte` bitset)
containing `ConvertMeshToData` also contains `ConvertMeshToFile`, because
the `ConvertMeshToData` bit pattern is `ConvertMeshToFile|(1 << 3)`. -/
theorem convertMeshToData_implies_convertMeshToFile (fs : Fin 256)
    (h : Trade.hasFeature fs.val Trade.ConvertMeshToData = true) :
    Trade.hasFeature fs.val Trade.ConvertMeshToFile = true := by
  revert h
  revert fs
  decide

/-- Witness for C9 at the feature set holding exactly the
`ConvertMeshToData` bits. -/
theorem convertMeshToData_implies_convertMeshToFile_witness :
    Trade.hasFeature 12 Trade.ConvertMeshToData = true ∧
    Trade.hasFeature 12 Trade.ConvertMeshToFile = true :=
  ⟨by decide,
   convertMeshToData_implies_convertMeshToFile ⟨12, by decide⟩ (by decide)⟩

/-- Claim C10: `addFlags` delegates to `setFlags` with the previous flags
ORed with the argument, `clearFlags` delegates to `setFlags` with the
previous flags ANDed with the (eight-bit) complement of the argument; in
both cases the stored flags take the combined value and the `doSetFlags`
hook observes exactly that combined value. -/
theorem addFlags_clearFlags_via_setFlags (s : Trade.ConverterFlagsState)
    (f : Nat) :
    Trade.addFlags s f = Trade.setFlags s (s.flags ||| f) ∧
    (Trade.addFlags s f).flags = (s.flags ||| f) ∧
    (Trade.addFlags s f).hookObserved = s.hookObserved ++ [s.flags ||| f] ∧
    Trade.clearFlags s f = Trade.setFlags s (s.flags &&& (f ^^^ 255)) ∧
    (Trade.clearFlags s f).flags = (s.flags &&& (f ^^^ 255)) ∧
    (Trade.clearFlags s f).hookObserved =
      s.hookObserved ++ [s.flags &&& (f ^^^ 255)] :=
  ⟨rfl, rfl, rfl, rfl, rfl, rfl⟩

end Magnum
